import Mathlib

/-!
Shallow embedding of the LMS backend (Express/Sequelize) core: the
response envelope (`src/utils/responses.js` and the older variant
`src/utils/response.js`), the pagination/filter query-condition pattern
shared by every list handler, the JWT issue/verify layer and the two
identity middlewares, the sign-up/sign-in handlers, the like toggle and
the user password setter.  JavaScript strings-or-undefined are `Option
String`, JS numbers (which in this code are only ever produced by
`Number(...)` on integer query strings) are `Option Int` with `none`
playing NaN, and an Express response sink is modelled by the list of
`(status, body)` pairs written to it.
-/

namespace LMS

/-! ### JavaScript value coercions used by the handlers -/

/-- JS truthiness of a string-or-undefined value (`undefined` and `""` are
falsy; every other string is truthy).  Used for `if (!token)`,
`if (query.name)`, `if (!value)` and the other guards in the source. -/
def truthy : Option String → Bool
  | none => false
  | some s => s != ""

/-- Decimal value of a digit list (assumes digits; callers check). -/
def digitsToNat (l : List Char) : Nat :=
  l.foldl (fun a c => 10 * a + (c.toNat - 48)) 0

/-- `Number(s)` for the integer-literal fragment of JS numeric strings:
`""` coerces to `0`, an optional minus sign followed by digits to the
signed integer, and everything else to NaN (`none`).  The handlers apply
this only to query-string parameters. -/
def jsStringToNumber (s : String) : Option Int :=
  match s.toList with
  | [] => some 0
  | '-' :: rest =>
      if rest ≠ [] ∧ rest.all Char.isDigit then some (-(digitsToNat rest : Int)) else none
  | l =>
      if l.all Char.isDigit then some ((digitsToNat l : Int)) else none

/-- `Number(x)` for a query parameter that may be absent
(`Number(undefined)` is NaN). -/
def jsToNumber : Option String → Option Int
  | none => none
  | some s => jsStringToNumber s

/-- `Math.abs(x)`, with NaN propagated. -/
def jsAbs (x : Option Int) : Option Int :=
  x.map (fun v => |v|)

/-- `x || d` for a number `x` that may be NaN: NaN and `0` are falsy and
select the default. -/
def jsOrElse (x : Option Int) (d : Int) : Int :=
  match x with
  | none => d
  | some v => if v = 0 then d else v

/-- `Math.abs(Number(query.currentPage)) || 1` — the page normalization
appearing verbatim in every list handler (admin articles, categories,
courses, users, chapters, and the user-facing routes). -/
def effCurrentPage (q : Option String) : Int :=
  jsOrElse (jsAbs (jsToNumber q)) 1

/-- `Math.abs(Number(query.pageSize)) || 10` — the page-size
normalization appearing verbatim in every list handler. -/
def effPageSize (q : Option String) : Int :=
  jsOrElse (jsAbs (jsToNumber q)) 10

/-! ### Errors and the response envelope -/

/-- An error reaching `failure`: its `name` drives classification; a
Sequelize validation error additionally carries the per-field messages
(`error.errors.map(e => e.message)`). -/
structure JSError where
  name : String
  message : String
  fieldMessages : List String
deriving Repr, DecidableEq

/-- One JSON body written through the response sink:
`{status, message, errors}` plus the HTTP status code.  Success bodies
carry `data` of the handler-specific type. -/
structure Response (α : Type) where
  httpStatus : Nat
  status : Bool
  message : String
  data : Option α
  errors : List String
deriving Repr, DecidableEq

/-- `success(res, message, data, code)` from `src/utils/responses.js`
(the JS default for `code` is 200; callers here always pass it). -/
def success (message : String) (data : α) (code : Nat) : Response α :=
  ⟨code, true, message, some data, []⟩

/-- `failure(res, error)` from `src/utils/responses.js`: each branch
`return`s after a single `res.status(...).json(...)`, so the whole
function is one classified write, first match on `error.name` wins. -/
def failure (e : JSError) : Response α :=
  if e.name = "SequelizeValidationError" then
    ⟨400, false, "Validation error", none, e.fieldMessages⟩
  else if e.name = "NotFoundError" then
    ⟨404, false, "Resource not exists", none, [e.message]⟩
  else if e.name = "BadRequestError" then
    ⟨400, false, "Wrong Request Parameters", none, [e.message]⟩
  else if e.name = "UnauthorizedError" then
    ⟨401, false, "Verification failed", none, [e.message]⟩
  else if e.name = "JsonWebTokenError" then
    ⟨401, false, "Verification failed", none, ["Wrong Token"]⟩
  else if e.name = "TokenExpiredError" then
    ⟨401, false, "Verification failed", none, ["Expired Token"]⟩
  else
    ⟨500, false, "Internal server error", none, [e.message]⟩

/-- The write log of `failure` from `src/utils/responses.js` on one
error: the early `return` in every branch makes it exactly one write. -/
def failureWrites (e : JSError) : List (Response Unit) :=
  [failure e]

/-- The write log of `failure` from `src/utils/response.js` (the older
variant).  Its entire body sits inside the
`if (error.name === 'SequelizeValidationError')` block and no branch
`return`s: for a validation error it writes the 400 body, skips the
nested (unreachable) `NotFoundError` check, and then also writes the 500
body; for every other error it writes nothing. -/
def responseJsFailureWrites (e : JSError) : List (Response Unit) :=
  if e.name = "SequelizeValidationError" then
    [⟨400, false, "Validation error", none, e.fieldMessages⟩]
    ++ (if e.name = "NotFoundError" then
          [⟨404, false, e.message, none, []⟩]
        else [])
    ++ [⟨500, false, "Internal server error", none, [e.message]⟩]
  else
    []

/-! ### Data model (the fields the modelled handlers touch) -/

/-- A persisted user record (`src/models/user.js` attributes used by the
handlers; `password` holds the stored digest, and is set to `none` when a
handler does `delete user.dataValues.password`). -/
structure User where
  id : Nat
  email : Option String
  username : Option String
  nickname : Option String
  password : Option String
  sex : Int
  role : Int
deriving Repr, DecidableEq

/-- A category row (`src/models/category.js` fields used by the admin
categories list handler). -/
structure Category where
  id : Nat
  name : String
  rank : Int
deriving Repr, DecidableEq

/-- A course row restricted to the fields the like toggle touches. -/
structure Course where
  id : Nat
  likesCount : Int
deriving Repr, DecidableEq

/-- A row of the `Likes` join table. -/
structure LikeRec where
  courseId : Nat
  userId : Nat
deriving Repr, DecidableEq

/-- Pagination metadata returned by every list handler:
`{total: count, currentPage, pageSize}`. -/
structure Pagination where
  total : Nat
  currentPage : Int
  pageSize : Int
deriving Repr, DecidableEq

/-! ### The admin categories list handler (C3 scenario)

`GET /admin/categories` (`src/routes/admin/categories.js`): normalize
`currentPage`/`pageSize`, build `condition` with
`offset = (currentPage-1)*pageSize`, `limit = pageSize`, a `name`
substring filter only when `query.name` is truthy, then
`findAndCountAll` and a 200 `success` envelope.  The data-layer
collaborator is modelled as filter + drop/take over the table (row
ordering is the collaborator's concern and is not re-modelled). -/

/-- `Op.like` with `%pat%`: case-sensitive substring match. -/
def likeContains (hay pat : String) : Bool :=
  decide (List.IsInfix pat.toList hay.toList)

/-- The query string of `GET /admin/categories`. -/
structure CategoriesQuery where
  currentPage : Option String
  pageSize : Option String
  name : Option String
deriving Repr, DecidableEq

/-- The `GET /admin/categories` list handler over table `db`. -/
def adminCategoriesIndex (q : CategoriesQuery) (db : List Category) :
    Response (List Category × Pagination) :=
  let currentPage := effCurrentPage q.currentPage
  let pageSize := effPageSize q.pageSize
  let offset := (currentPage - 1) * pageSize
  let filtered :=
    if truthy q.name then db.filter (fun c => likeContains c.name (q.name.getD "")) else db
  let rows := (filtered.drop offset.toNat).take pageSize.toNat
  success "Query successful" (rows, ⟨filtered.length, currentPage, pageSize⟩) 200

/-! ### Token issue/verify and the identity middlewares -/

/-- Seconds in a day; `jsonwebtoken` resolves the `"30d"` `expiresIn`
string to `30 * 86400` seconds. -/
def daySeconds : Nat := 86400

/-- A decoded JWT as the verifier sees it: the signed payload
(`{userId}`), issued-at and expiry stamps, and whether the signature
still matches the payload (`intact = false` models tampering). -/
structure Token where
  userId : Nat
  iat : Nat
  exp : Nat
  intact : Bool
deriving Repr, DecidableEq

/-- `jwt.sign({userId}, SECRET, {expiresIn: "30d"})` at clock time
`now` (seconds). -/
def jwtSign (uid : Nat) (now : Nat) : Token :=
  ⟨uid, now, now + 30 * daySeconds, true⟩

/-- Outcome of `jwt.verify`: the decoded subject, or a thrown
`TokenExpiredError` / `JsonWebTokenError`. -/
inductive VerifyOutcome where
  | ok (userId : Nat)
  | expired
  | malformed
deriving Repr, DecidableEq

/-- `jwt.verify(token, SECRET)` at clock time `now`: a broken signature
throws `JsonWebTokenError`; an intact token whose `exp` has passed
(`exp ≤ now`) throws `TokenExpiredError`; otherwise the payload is
returned. -/
def jwtVerify (tok : Token) (now : Nat) : VerifyOutcome :=
  if tok.intact = false then .malformed
  else if tok.exp ≤ now then .expired
  else .ok tok.userId

/-- The user-level middleware (`src/middlewares/user-auth.js`): missing
header token throws `UnauthorizedError`, a verifier failure propagates,
the `catch` funnels any throw into `failure`; on success the decoded
`userId` is attached to the request and `next()` runs — no data-layer
lookup.  `verify` abstracts `jwt.verify(token, SECRET)` at the current
clock. -/
def userAuth (verify : String → VerifyOutcome) (tokenHeader : Option String) :
    Sum (Response Unit) Nat :=
  if ¬ truthy tokenHeader then
    .inl (failure ⟨"UnauthorizedError", "Authorization token is required.", []⟩)
  else
    match verify (tokenHeader.getD "") with
    | .expired => .inl (failure ⟨"TokenExpiredError", "jwt expired", []⟩)
    | .malformed => .inl (failure ⟨"JsonWebTokenError", "invalid signature", []⟩)
    | .ok uid => .inr uid

/-- The admin middleware (`src/middlewares/admin-auth.js`): same prefix
as `userAuth`, then resolves the subject through `User.findByPk`; a
missing record or a role other than 100 throws `UnauthorizedError`; on
success the full user is attached and `next()` runs. -/
def adminAuth (verify : String → VerifyOutcome) (findByPk : Nat → Option User)
    (tokenHeader : Option String) : Sum (Response Unit) User :=
  if ¬ truthy tokenHeader then
    .inl (failure ⟨"UnauthorizedError", "Authorization token is required.", []⟩)
  else
    match verify (tokenHeader.getD "") with
    | .expired => .inl (failure ⟨"TokenExpiredError", "jwt expired", []⟩)
    | .malformed => .inl (failure ⟨"JsonWebTokenError", "invalid signature", []⟩)
    | .ok uid =>
        match findByPk uid with
        | none => .inl (failure ⟨"UnauthorizedError", "User not exists", []⟩)
        | some user =>
            if user.role ≠ 100 then
              .inl (failure ⟨"UnauthorizedError", "Not authorized as admin.", []⟩)
            else .inr user

/-! ### Sign-in (admin surface) and sign-up -/

/-- `User.findOne({where: {[Op.or]: [{email: login}, {username: login}]}})`
over table `db`. -/
def findByLogin (db : List User) (login : String) : Option User :=
  db.find? (fun u => u.email == some login || u.username == some login)

/-- `POST /admin/auth/sign_in` (`src/routes/admin/auth.js`).
`compareSync` abstracts `bcrypt.compareSync`; `now` is the clock used by
`jwt.sign`.  Missing login/password throw `BadRequestError`, an unknown
login throws `NotFoundError`, a wrong password or a non-administrator
role throws `UnauthorizedError`; otherwise a 30-day token is issued. -/
def adminSignIn (compareSync : String → String → Bool) (db : List User)
    (login password : Option String) (now : Nat) : Response Token :=
  if ¬ truthy login then failure ⟨"BadRequestError", "Email/Username is required.", []⟩
  else if ¬ truthy password then failure ⟨"BadRequestError", "Password is required.", []⟩
  else
    match findByLogin db (login.getD "") with
    | none => failure ⟨"NotFoundError", "User not exists. Login failed", []⟩
    | some user =>
        if ¬ compareSync (password.getD "") (user.password.getD "") then
          failure ⟨"UnauthorizedError", "Password is incorrect.", []⟩
        else if user.role ≠ 100 then
          failure ⟨"UnauthorizedError", "Not authorized to access.", []⟩
        else success "Login successfully" (jwtSign user.id now) 200

/-- The `password` attribute setter of `src/models/user.js`: a falsy
value or a length outside 6..45 throws a plain `Error` (its `name` is
`"Error"`, not a Sequelize validation error); otherwise the value is
hashed (`bcrypt.hashSync`, abstracted as `bhash`) and stored. -/
def passwordSet (bhash : String → String) (value : Option String) :
    Except JSError String :=
  if ¬ truthy value then
    .error ⟨"Error", "Password is required.", []⟩
  else if (value.getD "").length < 6 ∨ 45 < (value.getD "").length then
    .error ⟨"Error", "Length of password must be between 2 ~ 45 characters.", []⟩
  else
    .ok (bhash (value.getD ""))

/-- The client-controlled fields of a `POST /auth/sign_up` body.  The
handler reads only email/username/nickname/password from the body and
hard-codes `sex: 2, role: 0`, so any client-supplied `sex`/`role` are
carried here only to show they are ignored. -/
structure SignUpBody where
  email : Option String
  username : Option String
  nickname : Option String
  password : Option String
  sex : Option Int
  role : Option Int
deriving Repr, DecidableEq

/-- `POST /auth/sign_up` (`src/routes/users.js` auth router): builds the
create body with `sex: 2, role: 0`, runs `User.create` (whose `password`
setter may throw), deletes `dataValues.password`, and answers 201.  The
result pairs the record persisted by `User.create` (before the response
strips the digest) with the response written.  Per-field collaborator
validations other than the password setter are out of scope. -/
def signUp (bhash : String → String) (newId : Nat) (req : SignUpBody) :
    Option User × Response User :=
  match passwordSet bhash req.password with
  | .error e => (none, failure e)
  | .ok digest =>
      let created : User :=
        ⟨newId, req.email, req.username, req.nickname, some digest, 2, 0⟩
      let responded : User := { created with password := none }
      (some created, success "User is created successfully!" responded 201)

/-! ### Filter construction in the list handlers (C6)

`GET /admin/courses` and `GET /admin/users` build `condition` and then
run a chain of `if (query.X) condition.where = {...}` statements: every
branch assigns the single `where` field, so a later truthy parameter
replaces whatever an earlier one stored. -/

/-- The recognized filters of `GET /admin/courses`. -/
inductive CourseFilter where
  | categoryIdEq (v : String)
  | userIdEq (v : String)
  | nameLike (v : String)
  | recommendedEq (b : Bool)
  | introductoryEq (b : Bool)
deriving Repr, DecidableEq

/-- The filterable query parameters of `GET /admin/courses`. -/
structure CoursesQuery where
  categoryId : Option String
  userId : Option String
  name : Option String
  recommended : Option String
  introductory : Option String
deriving Repr, DecidableEq

/-- The `condition.where` left by the `if` chain of `GET /admin/courses`
(`src/routes/admin/courses.js`): `where` starts absent and each truthy
parameter reassigns it, in source order categoryId, userId, name,
recommended, introductory. -/
def buildCoursesWhere (q : CoursesQuery) : Option CourseFilter :=
  let w : Option CourseFilter := none
  let w := if truthy q.categoryId then some (.categoryIdEq (q.categoryId.getD "")) else w
  let w := if truthy q.userId then some (.userIdEq (q.userId.getD "")) else w
  let w := if truthy q.name then some (.nameLike (q.name.getD "")) else w
  let w := if truthy q.recommended then some (.recommendedEq (q.recommended.getD "" == "true")) else w
  let w := if truthy q.introductory then some (.introductoryEq (q.introductory.getD "" == "true")) else w
  w

/-- Spec-side reading of the same chain: of the recognized parameters
that are present and non-empty, the one latest in source order
contributes the only predicate; if none is, no predicate is added. -/
def coursesWhereSpec (q : CoursesQuery) : Option CourseFilter :=
  if truthy q.introductory then some (.introductoryEq (q.introductory.getD "" == "true"))
  else if truthy q.recommended then some (.recommendedEq (q.recommended.getD "" == "true"))
  else if truthy q.name then some (.nameLike (q.name.getD ""))
  else if truthy q.userId then some (.userIdEq (q.userId.getD ""))
  else if truthy q.categoryId then some (.categoryIdEq (q.categoryId.getD ""))
  else none

/-- The recognized filters of `GET /admin/users`. -/
inductive UserFilter where
  | emailEq (v : String)
  | usernameEq (v : String)
  | nicknameLike (v : String)
  | roleEq (v : String)
deriving Repr, DecidableEq

/-- The filterable query parameters of `GET /admin/users`. -/
structure UsersQuery where
  email : Option String
  username : Option String
  nickname : Option String
  role : Option String
deriving Repr, DecidableEq

/-- The `condition.where` left by the `if` chain of `GET /admin/users`
(`src/routes/admin/users.js`), source order email, username, nickname,
role. -/
def buildUsersWhere (q : UsersQuery) : Option UserFilter :=
  let w : Option UserFilter := none
  let w := if truthy q.email then some (.emailEq (q.email.getD "")) else w
  let w := if truthy q.username then some (.usernameEq (q.username.getD "")) else w
  let w := if truthy q.nickname then some (.nicknameLike (q.nickname.getD "")) else w
  let w := if truthy q.role then some (.roleEq (q.role.getD "")) else w
  w

/-- Spec-side last-wins reading of the `GET /admin/users` chain. -/
def usersWhereSpec (q : UsersQuery) : Option UserFilter :=
  if truthy q.role then some (.roleEq (q.role.getD ""))
  else if truthy q.nickname then some (.nicknameLike (q.nickname.getD ""))
  else if truthy q.username then some (.usernameEq (q.username.getD ""))
  else if truthy q.email then some (.emailEq (q.email.getD ""))
  else none

/-! ### The like toggle and the liked-courses listing (`src/routes/likes.js`) -/

/-- The slice of the store the likes routes touch: the `Courses` table
and the `Likes` join table. -/
structure LikesDB where
  courses : List Course
  likes : List LikeRec
deriving Repr, DecidableEq

/-- `Course.findByPk(courseId)`. -/
def findCourse (db : LikesDB) (cid : Nat) : Option Course :=
  db.courses.find? (fun c => c.id == cid)

/-- `Like.findOne({where: {courseId, userId}})`. -/
def findLike (db : LikesDB) (uid cid : Nat) : Option LikeRec :=
  db.likes.find? (fun l => l.courseId == cid && l.userId == uid)

/-- `course.increment("likesCount")`: atomic `+1` on the matched row. -/
def incrementLikes (db : LikesDB) (cid : Nat) : LikesDB :=
  { db with courses :=
      db.courses.map (fun c => if c.id == cid then { c with likesCount := c.likesCount + 1 } else c) }

/-- `course.decrement("likesCount")`: atomic `-1` on the matched row. -/
def decrementLikes (db : LikesDB) (cid : Nat) : LikesDB :=
  { db with courses :=
      db.courses.map (fun c => if c.id == cid then { c with likesCount := c.likesCount - 1 } else c) }

/-- `POST /likes` for the authenticated user `uid`: a missing course
throws `NotFoundError`; with no existing like record, `Like.create` then
increment and answer `"Liked successfully."`; with one, `like.destroy()`
then decrement and answer `"Unliked successfully."`.  Both branches are
`success` envelopes.  `Like.create` adds the row; `like.destroy()`
removes exactly the rows matching that (courseId, userId) pair (the pair
identifies at most one row in a well-formed store). -/
def postLikes (db : LikesDB) (uid cid : Nat) : LikesDB × Response Unit :=
  match findCourse db cid with
  | none => (db, failure ⟨"NotFoundError", "Course not exists", []⟩)
  | some _ =>
      match findLike db uid cid with
      | none =>
          let db1 : LikesDB := { db with likes := ⟨cid, uid⟩ :: db.likes }
          (incrementLikes db1 cid, success "Liked successfully." () 200)
      | some _ =>
          let db1 : LikesDB :=
            { db with likes := db.likes.filter (fun l => !(l.courseId == cid && l.userId == uid)) }
          (decrementLikes db1 cid, success "Unliked successfully." () 200)

/-- `GET /likes` for the authenticated subject `uid`
(`src/routes/likes.js`): normalizes pagination, then calls
`User.findByPk(req.userId)` and immediately invokes
`user.getLikeCourses(...)` on the result with no null check — when no
user record matches the token subject, that member access on `null`
throws a `TypeError`, which the `catch` hands to `failure`.
`likedCourses`/`likedCount` abstract the association queries
`user.getLikeCourses` and `user.countLikeCourses`. -/
def getLikesIndex (findByPk : Nat → Option User)
    (likedCourses : Nat → Int → Int → List Course) (likedCount : Nat → Nat)
    (uid : Nat) (qCurrentPage qPageSize : Option String) :
    Response (List Course × Pagination) :=
  let currentPage := effCurrentPage qCurrentPage
  let pageSize := effPageSize qPageSize
  let offset := (currentPage - 1) * pageSize
  match findByPk uid with
  | none =>
      failure ⟨"TypeError", "Cannot read properties of null (reading getLikeCourses)", []⟩
  | some user =>
      let courses := likedCourses user.id pageSize offset
      success "Liked Courses are returned"
        (courses, ⟨likedCount user.id, currentPage, pageSize⟩) 200

/-! ### Helper lemmas -/

/-- `find?` commutes with a map that does not disturb the predicate. -/
theorem find?_map_pred_invariant {α : Type} (f : α → α) (p : α → Bool) (l : List α)
    (h : ∀ x, p (f x) = p x) : (l.map f).find? p = (l.find? p).map f := by
  rw [List.find?_map, show p ∘ f = p from funext h]

/-- Incrementing a course's counter does not change which row
`Course.findByPk` finds, only its counter. -/
theorem findCourse_incrementLikes (db : LikesDB) (cid : Nat) :
    findCourse (incrementLikes db cid) cid =
      (findCourse db cid).map
        (fun c => if c.id == cid then { c with likesCount := c.likesCount + 1 } else c) := by
  unfold findCourse incrementLikes
  exact find?_map_pred_invariant _ _ _ (fun x => by cases hx : x.id == cid <;> simp [hx])

/-- A `+1` then `-1` on the same row leaves the course table unchanged. -/
theorem likesCount_roundtrip (l : List Course) (cid : Nat) :
    ((l.map (fun c => if c.id == cid then { c with likesCount := c.likesCount + 1 } else c)).map
      (fun c => if c.id == cid then { c with likesCount := c.likesCount - 1 } else c)) = l := by
  induction l with
  | nil => rfl
  | cons a l ih =>
      simp only [List.map_cons, ih]
      cases a with
      | mk i lc => by_cases hi : i = cid <;> simp [hi]

/-! ### Claims -/

/-- C1: the canonical `failure` (`src/utils/responses.js`) writes exactly
one body with first-match precedence (validation 400, not-found 404,
bad-request 400, unauthorized 401, malformed token 401, expired token
401, fallback 500); but the `src/utils/response.js` variant of `failure`
breaks the once-written-no-further-write rule: on a validation error it
writes two bodies (the 400 body and then the 500 body), and on every
other error it writes none. -/
theorem failure_write_discipline :
    (failureWrites ⟨"SequelizeValidationError", "boom", ["Email is required."]⟩).length = 1 ∧
    (failure ⟨"SequelizeValidationError", "boom", ["Email is required."]⟩ : Response Unit).httpStatus = 400 ∧
    (failure ⟨"NotFoundError", "boom", []⟩ : Response Unit).httpStatus = 404 ∧
    (failure ⟨"BadRequestError", "boom", []⟩ : Response Unit).httpStatus = 400 ∧
    (failure ⟨"UnauthorizedError", "boom", []⟩ : Response Unit).httpStatus = 401 ∧
    (failure ⟨"JsonWebTokenError", "boom", []⟩ : Response Unit).httpStatus = 401 ∧
    (failure ⟨"TokenExpiredError", "boom", []⟩ : Response Unit).httpStatus = 401 ∧
    (failure ⟨"TypeError", "boom", []⟩ : Response Unit).httpStatus = 500 ∧
    (responseJsFailureWrites ⟨"SequelizeValidationError", "boom", ["Email is required."]⟩).length = 2 ∧
    (responseJsFailureWrites ⟨"UnauthorizedError", "boom", []⟩).length = 0 :=
  ⟨rfl, rfl, rfl, rfl, rfl, rfl, rfl, rfl, rfl, rfl⟩

/-- C2 counterexample: the claim says every `currentPage` input `≤ 0`
yields effective page 1, but `currentPage = -3` yields effective page 3
(`Math.abs` is applied before the `|| 1` default). -/
theorem currentPage_negative_counterexample :
    effCurrentPage (some "-3") = 3 ∧ ¬ effCurrentPage (some "-3") = 1 := by
  constructor
  · rfl
  · intro h
    exact absurd (by rw [← h]; rfl : (3 : Int) = 1) (by decide)

/-- C2 amended: a `currentPage` input that is omitted, non-numeric or
zero yields effective page 1; a negative numeric input yields its
absolute value (not 1). -/
theorem currentPage_normalization (q : Option String) :
    ((jsToNumber q = none ∨ jsToNumber q = some 0) → effCurrentPage q = 1) ∧
    (∀ v : Int, jsToNumber q = some v → v < 0 → effCurrentPage q = -v) := by
  constructor
  · rintro (h | h) <;> simp [effCurrentPage, jsAbs, jsOrElse, h]
  · intro v hv hneg
    have habs : |v| = -v := abs_of_neg hneg
    have hne : ¬ (-v = 0) := by omega
    simp [effCurrentPage, jsAbs, jsOrElse, hv, habs, hne]

/-- Witness for C2: the amended claim at `currentPage=-3` (absolute
value) and at an omitted `currentPage` (default 1). -/
theorem currentPage_normalization_witness :
    effCurrentPage (some "-3") = 3 ∧ effCurrentPage none = 1 := by
  constructor
  · have h := (currentPage_normalization (some "-3")).2 (-3) rfl (by decide)
    rw [h]; decide
  · exact (currentPage_normalization none).1 (Or.inl rfl)

/-- C3: the effective page size is the absolute value of the numeric
`pageSize` input, defaulting to 10 when that value is falsy (0, NaN,
omitted), so `pageSize=0` yields 10; and
`GET /admin/categories?currentPage=0&pageSize=-5` is treated as
`currentPage=1, pageSize=5` and answers 200 with pagination metadata
carrying those normalized values, for every table state. -/
theorem pageSize_normalization_and_scenario :
    (∀ q : Option String, (jsToNumber q = none ∨ jsToNumber q = some 0) → effPageSize q = 10) ∧
    (∀ (q : Option String) (v : Int), jsToNumber q = some v → ¬ v = 0 → effPageSize q = |v|) ∧
    effPageSize (some "0") = 10 ∧
    (∀ db : List Category,
      (adminCategoriesIndex ⟨some "0", some "-5", none⟩ db).httpStatus = 200 ∧
      (adminCategoriesIndex ⟨some "0", some "-5", none⟩ db).status = true ∧
      (adminCategoriesIndex ⟨some "0", some "-5", none⟩ db).data.map
        (fun p => p.2.currentPage) = some 1 ∧
      (adminCategoriesIndex ⟨some "0", some "-5", none⟩ db).data.map
        (fun p => p.2.pageSize) = some 5) := by
  refine ⟨?_, ?_, rfl, fun db => ⟨rfl, rfl, rfl, rfl⟩⟩
  · rintro q (h | h) <;> simp [effPageSize, jsAbs, jsOrElse, h]
  · intro q v hv hne
    have habs : ¬ (|v| = 0) := by simpa using hne
    simp [effPageSize, jsAbs, jsOrElse, hv, habs]

/-- Witness for C3: `pageSize=-5` gives 5, an omitted `pageSize` gives
10, and the scenario request answers 200 with pagination (1, 5) on a
concrete one-row table. -/
theorem pageSize_normalization_witness :
    effPageSize (some "-5") = 5 ∧ effPageSize none = 10 ∧
    (adminCategoriesIndex ⟨some "0", some "-5", none⟩ [⟨1, "cat", 0⟩]).httpStatus = 200 ∧
    (adminCategoriesIndex ⟨some "0", some "-5", none⟩ [⟨1, "cat", 0⟩]).data.map
      (fun p => p.2.pageSize) = some 5 := by
  have h5 := pageSize_normalization_and_scenario.2.1 (some "-5") (-5) rfl (by decide)
  have hsc := pageSize_normalization_and_scenario.2.2.2 [⟨1, "cat", 0⟩]
  exact ⟨by rw [h5]; decide, pageSize_normalization_and_scenario.1 none (Or.inl rfl),
    hsc.1, hsc.2.2.2⟩

/-- C4: a principal whose credentials verify but whose role is not 100
gets an authorization failure (`UnauthorizedError`, written as a 401
envelope), never a server error: the admin middleware rejects a valid
token whose resolved user is not an administrator, and the admin sign-in
rejects a non-administrator even with correct login and password. -/
theorem admin_gate_rejects_non_admin
    (verify : String → VerifyOutcome) (findByPk : Nat → Option User)
    (t : String) (uid : Nat) (u : User)
    (ht : ¬ t = "") (hv : verify t = .ok uid) (hf : findByPk uid = some u)
    (hr : ¬ u.role = 100)
    (compareSync : String → String → Bool) (db : List User)
    (login pwd : String) (now : Nat) (u2 : User)
    (hl : ¬ login = "") (hp : ¬ pwd = "")
    (hfind : findByLogin db login = some u2)
    (hpw : compareSync pwd (u2.password.getD "") = true) (hr2 : ¬ u2.role = 100) :
    adminAuth verify findByPk (some t)
      = .inl (failure ⟨"UnauthorizedError", "Not authorized as admin.", []⟩) ∧
    (failure ⟨"UnauthorizedError", "Not authorized as admin.", []⟩ : Response Unit).httpStatus = 401 ∧
    adminSignIn compareSync db (some login) (some pwd) now
      = failure ⟨"UnauthorizedError", "Not authorized to access.", []⟩ ∧
    (failure ⟨"UnauthorizedError", "Not authorized to access.", []⟩ : Response Token).httpStatus = 401 := by
  refine ⟨?_, rfl, ?_, rfl⟩
  · simp [adminAuth, truthy, ht, hv, hf, hr]
  · simp [adminSignIn, truthy, hl, hp, hfind, hpw, hr2]

/-- Witness for C4 on a concrete non-admin user (role 0) with a valid
token and correct credentials. -/
theorem admin_gate_rejects_non_admin_witness :
    adminAuth (fun _ => .ok 1)
        (fun _ => some ⟨1, some "a@b.com", some "alice", some "Alice", some "digest", 2, 0⟩)
        (some "tkn")
      = .inl (failure ⟨"UnauthorizedError", "Not authorized as admin.", []⟩) ∧
    adminSignIn (fun _ _ => true)
        [⟨1, some "a@b.com", some "alice", some "Alice", some "digest", 2, 0⟩]
        (some "alice") (some "abcdef") 0
      = failure ⟨"UnauthorizedError", "Not authorized to access.", []⟩ := by
  have h := admin_gate_rejects_non_admin (fun _ => .ok 1)
    (fun _ => some ⟨1, some "a@b.com", some "alice", some "Alice", some "digest", 2, 0⟩)
    "tkn" 1 ⟨1, some "a@b.com", some "alice", some "Alice", some "digest", 2, 0⟩
    (by decide) rfl rfl (by decide)
    (fun _ _ => true) [⟨1, some "a@b.com", some "alice", some "Alice", some "digest", 2, 0⟩]
    "alice" "abcdef" 0 ⟨1, some "a@b.com", some "alice", some "Alice", some "digest", 2, 0⟩
    (by decide) (by decide) (by decide) rfl (by decide)
  exact ⟨h.1, h.2.2.1⟩

/-- C5: a token issued at time T carries expiry exactly T + 30 days, so
it verifies at T+29 days and is expired at T+31 days; a tampered
(signature-broken) token is always rejected as malformed, and the
verifying middleware turns both expired and malformed tokens into 401
failure envelopes without invoking the handler. -/
theorem token_thirty_day_expiry
    (uid T : Nat) (tok : Token) (now : Nat) (verify : String → VerifyOutcome) (t : String)
    (hmal : tok.intact = false) (ht : ¬ t = "") :
    (jwtSign uid T).exp = T + 30 * daySeconds ∧
    jwtVerify (jwtSign uid T) (T + 29 * daySeconds) = .ok uid ∧
    jwtVerify (jwtSign uid T) (T + 31 * daySeconds) = .expired ∧
    jwtVerify tok now = .malformed ∧
    (verify t = .expired →
      userAuth verify (some t) = .inl (failure ⟨"TokenExpiredError", "jwt expired", []⟩)) ∧
    (verify t = .malformed →
      userAuth verify (some t) = .inl (failure ⟨"JsonWebTokenError", "invalid signature", []⟩)) ∧
    (failure ⟨"TokenExpiredError", "jwt expired", []⟩ : Response Unit).httpStatus = 401 ∧
    (failure ⟨"JsonWebTokenError", "invalid signature", []⟩ : Response Unit).httpStatus = 401 := by
  have h29 : ¬ (T + 30 * daySeconds ≤ T + 29 * daySeconds) := by
    simp [daySeconds]
  have h31 : T + 30 * daySeconds ≤ T + 31 * daySeconds := by
    simp [daySeconds]
  refine ⟨rfl, ?_, ?_, ?_, ?_, ?_, rfl, rfl⟩
  · simp [jwtVerify, jwtSign, h29]
  · simp [jwtVerify, jwtSign, h31]
  · simp [jwtVerify, hmal]
  · intro hv; simp [userAuth, truthy, ht, hv]
  · intro hv; simp [userAuth, truthy, ht, hv]

/-- Witness for C5: a token issued at time 0 for user 1 verifies at day
29, is expired at day 31, and an expired verification outcome makes the
middleware answer with the 401 expired-token envelope. -/
theorem token_thirty_day_expiry_witness :
    jwtVerify (jwtSign 1 0) (0 + 29 * daySeconds) = .ok 1 ∧
    jwtVerify (jwtSign 1 0) (0 + 31 * daySeconds) = .expired ∧
    jwtVerify ⟨1, 0, 30 * daySeconds, false⟩ 0 = .malformed ∧
    userAuth (fun _ => .expired) (some "tkn")
      = .inl (failure ⟨"TokenExpiredError", "jwt expired", []⟩) := by
  have h := token_thirty_day_expiry 1 0 ⟨1, 0, 30 * daySeconds, false⟩ 0
    (fun _ => .expired) "tkn" rfl (by decide)
  exact ⟨h.2.1, h.2.2.1, h.2.2.2.1, h.2.2.2.2.1 rfl⟩

/-- C6: in the courses and users list handlers every recognized filter
branch reassigns the single `where` field, so the handler-built `where`
coincides with the last-truthy-parameter-wins reading: at most one
predicate reaches the data layer, the parameter latest in source order
discards all earlier ones, and absent or empty parameters contribute no
predicate. -/
theorem filters_last_wins :
    (∀ q : CoursesQuery, buildCoursesWhere q = coursesWhereSpec q) ∧
    (∀ q : UsersQuery, buildUsersWhere q = usersWhereSpec q) ∧
    buildCoursesWhere ⟨some "3", some "7", some "x", none, none⟩
      = some (.nameLike "x") ∧
    buildUsersWhere ⟨some "a@b.com", some "alice", none, some "100"⟩
      = some (.roleEq "100") ∧
    buildCoursesWhere ⟨none, none, none, none, none⟩ = none ∧
    buildUsersWhere ⟨some "", some "", some "", some ""⟩ = none :=
  ⟨fun _ => rfl, fun _ => rfl, rfl, rfl, rfl, rfl⟩

/-- C7: for every sign-up request whose password passes the setter, the
record persisted by `User.create` has `sex = 2` and `role = 0` whatever
`sex`/`role` the client supplied, and the 201 success response carries
the created user with the password field stripped. -/
theorem signUp_fixes_sex_role_strips_password
    (bhash : String → String) (newId : Nat) (req : SignUpBody)
    (hp : truthy req.password = true)
    (hlen : 6 ≤ (req.password.getD "").length ∧ (req.password.getD "").length ≤ 45) :
    (signUp bhash newId req).1
      = some ⟨newId, req.email, req.username, req.nickname,
          some (bhash (req.password.getD "")), 2, 0⟩ ∧
    ((signUp bhash newId req).1.map User.sex) = some 2 ∧
    ((signUp bhash newId req).1.map User.role) = some 0 ∧
    (signUp bhash newId req).2.httpStatus = 201 ∧
    (signUp bhash newId req).2.status = true ∧
    ((signUp bhash newId req).2.data.map User.password) = some none ∧
    ((signUp bhash newId req).2.data.map User.username) = some req.username := by
  have hlen2 : ¬ ((req.password.getD "").length < 6 ∨ 45 < (req.password.getD "").length) := by
    omega
  have hset : passwordSet bhash req.password = .ok (bhash (req.password.getD "")) := by
    unfold passwordSet
    rw [hp, if_neg (by simp), if_neg hlen2]
  simp [signUp, hset, success]

/-- Witness for C7: the spec scenario
`{email: a@b.com, username: alice, nickname: Alice, password: abcdef}`
(with a client-supplied sex and role that must be ignored) answers 201,
stores sex 2 and role 0, and strips the password from the body. -/
theorem signUp_scenario_witness :
    ((signUp (fun s => String.append s "#") 1
        ⟨some "a@b.com", some "alice", some "Alice", some "abcdef", some 1, some 100⟩).1.map
      User.sex) = some 2 ∧
    ((signUp (fun s => String.append s "#") 1
        ⟨some "a@b.com", some "alice", some "Alice", some "abcdef", some 1, some 100⟩).1.map
      User.role) = some 0 ∧
    (signUp (fun s => String.append s "#") 1
        ⟨some "a@b.com", some "alice", some "Alice", some "abcdef", some 1, some 100⟩).2.httpStatus
      = 201 ∧
    ((signUp (fun s => String.append s "#") 1
        ⟨some "a@b.com", some "alice", some "Alice", some "abcdef", some 1, some 100⟩).2.data.map
      User.password) = some none ∧
    ((signUp (fun s => String.append s "#") 1
        ⟨some "a@b.com", some "alice", some "Alice", some "abcdef", some 1, some 100⟩).2.data.map
      User.username) = some (some "alice") := by
  have h := signUp_fixes_sex_role_strips_password (fun s => String.append s "#") 1
    ⟨some "a@b.com", some "alice", some "Alice", some "abcdef", some 1, some 100⟩
    rfl (by decide)
  exact ⟨h.2.1, h.2.2.1, h.2.2.2.1, h.2.2.2.2.2.1, h.2.2.2.2.2.2⟩

/-- C9: a create/update whose plaintext password is shorter than 6 or
longer than 45 characters makes the password setter throw a plain
`Error` (name `"Error"`, not a Sequelize validation error), which the
envelope's fallback branch turns into HTTP 500 "Internal server error"
rather than a 400 validation failure. -/
theorem password_setter_plain_error_500 (bhash : String → String) (v : String)
    (hlen : v.length < 6 ∨ 45 < v.length) :
    ∃ e : JSError,
      passwordSet bhash (some v) = .error e ∧
      e.name = "Error" ∧
      (failure e : Response Unit).httpStatus = 500 ∧
      (failure e : Response Unit).message = "Internal server error" ∧
      ¬ (failure e : Response Unit).httpStatus = 400 := by
  by_cases hv : v = ""
  · subst hv
    exact ⟨⟨"Error", "Password is required.", []⟩, by simp [passwordSet, truthy],
      rfl, rfl, rfl, by decide⟩
  · refine ⟨⟨"Error", "Length of password must be between 2 ~ 45 characters.", []⟩,
      ?_, rfl, rfl, rfl, by decide⟩
    unfold passwordSet
    rw [if_neg (by simp [truthy, hv]), if_pos (by simpa using hlen)]

/-- Witness for C9 at the five-character password "abc12": the setter
throws a plain `Error` and the envelope answers 500. -/
theorem password_setter_witness :
    passwordSet (fun s => s) (some "abc12")
      = .error ⟨"Error", "Length of password must be between 2 ~ 45 characters.", []⟩ ∧
    (failure (⟨"Error", "Length of password must be between 2 ~ 45 characters.", []⟩ : JSError)
      : Response Unit).httpStatus = 500 := by
  obtain ⟨e, h1, h2, h3, h4, h5⟩ :=
    password_setter_plain_error_500 (fun s => s) "abc12" (Or.inl (by decide))
  have hcalc : passwordSet (fun s => s) (some "abc12")
      = .error ⟨"Error", "Length of password must be between 2 ~ 45 characters.", []⟩ := by
    rfl
  rw [hcalc] at h1
  injection h1 with he
  rw [← he] at h3
  exact ⟨hcalc, h3⟩

/-- One step of the toggle in the no-existing-like branch. -/
theorem postLikes_like_step (db0 : LikesDB) (uid cid : Nat) (c1 : Course)
    (hc1 : findCourse db0 cid = some c1) (hl1 : findLike db0 uid cid = none) :
    postLikes db0 uid cid
      = (incrementLikes { db0 with likes := ⟨cid, uid⟩ :: db0.likes } cid,
          success "Liked successfully." () 200) := by
  simp [postLikes, hc1, hl1]

/-- One step of the toggle in the existing-like branch. -/
theorem postLikes_unlike_step (db0 : LikesDB) (uid cid : Nat) (c1 : Course) (lk : LikeRec)
    (hc1 : findCourse db0 cid = some c1) (hl1 : findLike db0 uid cid = some lk) :
    postLikes db0 uid cid
      = (decrementLikes
          { db0 with likes := db0.likes.filter (fun l => !(l.courseId == cid && l.userId == uid)) }
          cid,
         success "Unliked successfully." () 200) := by
  simp [postLikes, hc1, hl1]

/-- C8: for a user with no existing like record on an existing course,
two sequential `POST /likes` calls have net-zero effect: the first
creates the record and increments the counter, answering the success
envelope "Liked successfully."; the second destroys it and decrements,
answering the success envelope "Unliked successfully."; and the store
afterwards equals the initial store. -/
theorem likes_toggle_net_zero (db : LikesDB) (uid cid : Nat) (c : Course)
    (hc : findCourse db cid = some c) (hl : findLike db uid cid = none) :
    (postLikes db uid cid).2 = success "Liked successfully." () 200 ∧
    findCourse (postLikes db uid cid).1 cid
      = some { c with likesCount := c.likesCount + 1 } ∧
    (postLikes (postLikes db uid cid).1 uid cid).2
      = success "Unliked successfully." () 200 ∧
    (postLikes (postLikes db uid cid).1 uid cid).1 = db := by
  have hc' : db.courses.find? (fun x => x.id == cid) = some c := hc
  have hcid := List.find?_some hc'
  have hstep1 := postLikes_like_step db uid cid c hc hl
  -- the course row seen by the second call
  have hc1 : findCourse (incrementLikes { db with likes := ⟨cid, uid⟩ :: db.likes } cid) cid
      = some { c with likesCount := c.likesCount + 1 } := by
    have hignore : findCourse { db with likes := ⟨cid, uid⟩ :: db.likes } cid
        = findCourse db cid := rfl
    rw [findCourse_incrementLikes, hignore, hc]
    simp only [Option.map]
    rw [if_pos hcid]
  -- the like row seen by the second call
  have hl1 : findLike (incrementLikes { db with likes := ⟨cid, uid⟩ :: db.likes } cid) uid cid
      = some ⟨cid, uid⟩ := by
    show List.find? (fun l => l.courseId == cid && l.userId == uid)
      (⟨cid, uid⟩ :: db.likes) = some ⟨cid, uid⟩
    exact List.find?_cons_of_pos _ (by simp)
  have hstep2 := postLikes_unlike_step
    (incrementLikes { db with likes := ⟨cid, uid⟩ :: db.likes } cid) uid cid _ _ hc1 hl1
  -- destroying the fresh record restores the likes table
  have hfilter : ((⟨cid, uid⟩ : LikeRec) :: db.likes).filter
      (fun l => !(l.courseId == cid && l.userId == uid)) = db.likes := by
    rw [List.filter_cons_of_neg (by simp), List.filter_eq_self]
    intro a ha
    have hnot := (List.find?_eq_none.mp hl) a ha
    simp only [Bool.and_eq_true, beq_iff_eq, not_and] at hnot
    simp only [Bool.not_eq_true', Bool.and_eq_false_iff, beq_eq_false_iff_ne, ne_eq]
    by_cases h1 : a.courseId = cid
    · exact Or.inr (hnot h1)
    · exact Or.inl h1
  refine ⟨by rw [hstep1], by rw [hstep1]; exact hc1, ?_, ?_⟩
  · rw [hstep1]
    show (postLikes (incrementLikes { db with likes := ⟨cid, uid⟩ :: db.likes } cid) uid cid).2
      = success "Unliked successfully." () 200
    rw [hstep2]
  · rw [hstep1]
    show (postLikes (incrementLikes { db with likes := ⟨cid, uid⟩ :: db.likes } cid) uid cid).1 = db
    rw [hstep2]
    show decrementLikes
        { incrementLikes { db with likes := ⟨cid, uid⟩ :: db.likes } cid with
          likes := ((⟨cid, uid⟩ : LikeRec) :: db.likes).filter
            (fun l => !(l.courseId == cid && l.userId == uid)) } cid = db
    rw [hfilter]
    show LikesDB.mk
        (((db.courses.map
            (fun c => if c.id == cid then { c with likesCount := c.likesCount + 1 } else c)).map
          (fun c => if c.id == cid then { c with likesCount := c.likesCount - 1 } else c)))
        db.likes = db
    rw [likesCount_roundtrip]

/-- Witness for C8: user 1 toggling course 5 (counter 0, no prior like)
twice returns to the initial store, with both calls succeeding. -/
theorem likes_toggle_net_zero_witness :
    (postLikes ⟨[⟨5, 0⟩], []⟩ 1 5).2 = success "Liked successfully." () 200 ∧
    (postLikes (postLikes ⟨[⟨5, 0⟩], []⟩ 1 5).1 1 5).2
      = success "Unliked successfully." () 200 ∧
    (postLikes (postLikes ⟨[⟨5, 0⟩], []⟩ 1 5).1 1 5).1 = ⟨[⟨5, 0⟩], []⟩ := by
  have h := likes_toggle_net_zero ⟨[⟨5, 0⟩], []⟩ 1 5 ⟨5, 0⟩ rfl rfl
  exact ⟨h.1, h.2.2.1, h.2.2.2⟩

/-- C10: for a `GET /likes` request whose valid token subject matches no
user record, the handler calls `User.findByPk` and dereferences the null
result without a check (the user middleware attaches the subject id
without any data-layer lookup), so the thrown `TypeError` falls through
every classified branch and the response is the 500 "Internal server
error" envelope, not 401 and not 404. -/
theorem getLikes_missing_user_500
    (findByPk : Nat → Option User)
    (likedCourses : Nat → Int → Int → List Course) (likedCount : Nat → Nat)
    (uid : Nat) (qcp qps : Option String)
    (hnone : findByPk uid = none)
    (verify : String → VerifyOutcome) (t : String) (ht : ¬ t = "") (hv : verify t = .ok uid) :
    userAuth verify (some t) = .inr uid ∧
    getLikesIndex findByPk likedCourses likedCount uid qcp qps
      = failure ⟨"TypeError", "Cannot read properties of null (reading getLikeCourses)", []⟩ ∧
    (getLikesIndex findByPk likedCourses likedCount uid qcp qps).httpStatus = 500 ∧
    (getLikesIndex findByPk likedCourses likedCount uid qcp qps).message
      = "Internal server error" ∧
    ¬ (getLikesIndex findByPk likedCourses likedCount uid qcp qps).httpStatus = 401 ∧
    ¬ (getLikesIndex findByPk likedCourses likedCount uid qcp qps).httpStatus = 404 := by
  have h2 : getLikesIndex findByPk likedCourses likedCount uid qcp qps
      = failure ⟨"TypeError", "Cannot read properties of null (reading getLikeCourses)", []⟩ := by
    simp [getLikesIndex, hnone]
  refine ⟨by simp [userAuth, truthy, ht, hv], h2, ?_, ?_, ?_, ?_⟩ <;> rw [h2] <;> decide

/-- Witness for C10: the empty user table, subject id 9 carried by a
valid token, yields the 500 envelope. -/
theorem getLikes_missing_user_500_witness :
    userAuth (fun _ => .ok 9) (some "tkn") = .inr 9 ∧
    (getLikesIndex (fun _ => none) (fun _ _ _ => []) (fun _ => 0) 9 none none).httpStatus
      = 500 := by
  have h := getLikes_missing_user_500 (fun _ => none) (fun _ _ _ => []) (fun _ => 0) 9
    none none rfl (fun _ => .ok 9) "tkn" (by decide) rfl
  exact ⟨h.1, h.2.2.1⟩

end LMS
